import Mathlib

/-!
Shallow embedding of the multi-tenant ticketing backend (Express + Prisma).
Definitions are translated from the TypeScript source:
  * organization middleware (identifyOrganization, verifyOrganizationAccess,
    requireOrgAdmin) — src/unnamed/part_000,
  * ticket routes (GET /public, POST /, POST /public) — src/src/routes/tickets.ts,
  * ticket-status routes (GET /, DELETE /:id) — src/unnamed/part_004,
  * notification / activity-log helpers — src/src/utils/notifications.ts.
The Prisma database is modelled as lists of rows; JavaScript string
truthiness (empty string is falsy) is modelled explicitly.
-/

namespace Ticketing

/-! ## Basic JS semantics helpers -/

/-- Truthiness of a JS `string | undefined | null` value: `undefined`, `null`
and the empty string are falsy.  `jsNonEmpty o` is `some s` exactly when the
value is a truthy string `s`. -/
def jsNonEmpty (o : Option String) : Option String :=
  match o with
  | none => none
  | some s => if s = "" then none else some s

/-- Model of the JS idiom `x || null` for `x : string | null`. -/
def jsStrOpt (o : Option String) : Option String := jsNonEmpty o

/-- Model of the Prisma `where` clause entry `field: v` when `v` may be
`undefined`: an `undefined` entry is ignored (no filtering), otherwise the
row's value must equal `v`. -/
def prismaOrgFilter (orgId? : Option String) (rowOrg : String) : Bool :=
  match orgId? with
  | none => true
  | some o => rowOrg == o

/-! ## Roles and rows of the data model -/

/-- Membership role inside one organization (`UserOrganization.role`). -/
inductive OrgRole
  | MEMBER
  | ADMIN
deriving DecidableEq, Repr

/-- Global (platform-level) role carried by the auth token (`req.userRole`). -/
inductive GlobalRole
  | USER
  | ADMIN
  | SUPERADMIN
deriving DecidableEq, Repr

/-- Row of the `UserOrganization` (Membership) table. -/
structure Membership where
  userId : String
  organizationId : String
  role : OrgRole
deriving DecidableEq, Repr

/-- Row of the `Organization` table (fields used by the middleware). -/
structure Organization where
  id : String
  name : String
  slug : String
  subdomain : Option String
deriving DecidableEq, Repr

/-- Row of the `User` table (fields selected by the ticket routes). -/
structure User where
  id : String
  email : String
  name : String
deriving DecidableEq, Repr

/-- Row of the `Category` table (fields used by the ticket routes). -/
structure Category where
  id : String
  organizationId : String
  name : String
deriving DecidableEq, Repr

/-- Row of the `UserCategoryAssignment` table, with the `user` relation
included as the routes fetch it (`include: { user: ... }`). -/
structure AssignmentRow where
  userId : String
  categoryId : String
  organizationId : String
  userEmail : String
  userName : String
deriving DecidableEq, Repr

/-- Row of the `Ticket` table (fields relevant to the verified routes). -/
structure Ticket where
  id : String
  organizationId : String
  title : String
  description : String
  priority : String
  categoryId : Option String
  userId : Option String
  submitterName : Option String
  submitterEmail : Option String
  assignedTo : Option String
  publicToken : Option String
  statusId : Option String
deriving DecidableEq, Repr

/-- Row of the `TicketStatus` table. -/
structure TicketStatus where
  id : String
  name : String
  organizationId : String
  order : Int
deriving DecidableEq, Repr

/-- The Prisma store, modelled as lists of rows in insertion order
(`findMany` with no `orderBy` returns rows in stored order). -/
structure Db where
  organizations : List Organization
  memberships : List Membership
  users : List User
  categories : List Category
  assignments : List AssignmentRow
  tickets : List Ticket
  statuses : List TicketStatus
deriving DecidableEq, Repr

/-- Model of `prisma.userOrganization.findUnique` on the compound key
`userId_organizationId`. -/
def findMembership (db : Db) (userId organizationId : String) : Option Membership :=
  db.memberships.find? (fun m => m.userId == userId && m.organizationId == organizationId)

/-! ## Access-control middleware (src/unnamed/part_000) -/

/-- Outcome of an Express middleware: either call `next()` or terminate with
an HTTP status and JSON message. -/
inductive MwResult
  | next
  | respond (status : Nat) (message : String)
deriving DecidableEq, Repr

/-- Embedding of `verifyOrganizationAccess`: requires truthy
`req.organizationId` and `req.userId`, looks up the Membership row and
rejects 403 when it is absent.  The function takes no role argument because
the source never reads a role. -/
def verifyOrganizationAccess (db : Db) (organizationId? userId? : Option String) : MwResult :=
  match jsNonEmpty organizationId?, jsNonEmpty userId? with
  | some orgId, some userId =>
    match findMembership db userId orgId with
    | none => .respond 403 "Access denied: User does not belong to this organization"
    | some _ => .next
  | _, _ => .respond 401 "Authentication required"

/-- Embedding of `requireOrgAdmin`: same auth guard and membership lookup;
rejects 403 when `!userOrg || (userOrg.role !== ADMIN && req.userRole !== ADMIN)`. -/
def requireOrgAdmin (db : Db) (organizationId? userId? : Option String)
    (userRole? : Option GlobalRole) : MwResult :=
  match jsNonEmpty organizationId?, jsNonEmpty userId? with
  | some orgId, some userId =>
    match findMembership db userId orgId with
    | none => .respond 403 "Organization admin access required"
    | some userOrg =>
      if userOrg.role ≠ OrgRole.ADMIN ∧ userRole? ≠ some GlobalRole.ADMIN then
        .respond 403 "Organization admin access required"
      else
        .next
  | _, _ => .respond 401 "Authentication required"

/-! ## Slug normalization and tenant resolution (src/unnamed/part_000) -/

/-- ASCII lowercase of one character, modelling `toLowerCase` on the
characters the middleware handles. -/
def lowerChar (c : Char) : Char :=
  if 65 ≤ c.toNat ∧ c.toNat ≤ 90 then Char.ofNat (c.toNat + 32) else c

/-- Lowercase an entire string. -/
def lowerStr (s : String) : String := ⟨s.data.map lowerChar⟩

/-- Model of `s.split(sep)[0]`: the prefix before the first separator. -/
def splitHead (sep : Char) (s : String) : String :=
  ⟨s.data.takeWhile (fun c => c != sep)⟩

/-- Whitespace characters removed by `trim` (ASCII subset). -/
def isJsSpace (c : Char) : Bool :=
  c == ' ' || c == '\t' || c == '\n' || c == '\r' ||
    c == Char.ofNat 11 || c == Char.ofNat 12

/-- Characters allowed by the slug character class `[a-z0-9-]`. -/
def isSlugChar (c : Char) : Bool :=
  (97 ≤ c.toNat && c.toNat ≤ 122) || (48 ≤ c.toNat && c.toNat ≤ 57) || c == '-'

/-- Replacement step `replace(/[^a-z0-9-]/g, '-')` on one character. -/
def replaceBad (c : Char) : Char := if isSlugChar c then c else '-'

/-- Remove the longest suffix whose characters satisfy `p` (structural
version of dropping from the end). -/
def dropEnd (p : Char → Bool) : List Char → List Char
  | [] => []
  | c :: cs =>
    match dropEnd p cs with
    | [] => if p c then [] else [c]
    | rest => c :: rest

/-- Model of `trim`: remove leading and trailing whitespace. -/
def trimWS (l : List Char) : List Char := dropEnd isJsSpace (l.dropWhile isJsSpace)

/-- Model of `replace(/^-+|-+$/g, '')`: strip leading and trailing hyphens. -/
def stripEdgeHyphens (l : List Char) : List Char :=
  dropEnd (fun c => c == '-') (l.dropWhile (fun c => c == '-'))

/-- Character-level slug normalization: trim, lowercase, replace every
character outside `[a-z0-9-]` with a hyphen, strip edge hyphens — the chain
applied to `organizationSlug` in `identifyOrganization`. -/
def normalizeChars (l : List Char) : List Char :=
  stripEdgeHyphens (((trimWS l).map lowerChar).map replaceBad)

/-- Slug normalization on strings. -/
def normalizeSlug (s : String) : String := ⟨normalizeChars s.data⟩

/-- The signals `identifyOrganization` reads from the request. -/
structure TenantRequest where
  hostHeader : Option String
  mainAppHostEnv : Option String
  orgSlugParam : Option String
  orgQuery : Option String
  orgSlugHeader : Option String
deriving DecidableEq, Repr

/-- Model of `(req.get('host') || '').toLowerCase().split(':')[0]`. -/
def hostOf (r : TenantRequest) : String :=
  splitHead ':' (lowerStr (r.hostHeader.getD ""))

/-- Model of `(process.env.MAIN_APP_HOST || '').toLowerCase().split(':')[0]`. -/
def mainAppHostOf (r : TenantRequest) : String :=
  splitHead ':' (lowerStr (r.mainAppHostEnv.getD ""))

/-- First truthy value of a chain of JS `if (!organizationSlug && x)` steps. -/
def firstTruthy : List (Option String) → Option String
  | [] => none
  | o :: rest =>
    match jsNonEmpty o with
    | some s => some s
    | none => firstTruthy rest

/-- Method 1 of `identifyOrganization`: the subdomain signal, skipped when
the host is the configured main-app host or the label is www/localhost. -/
def subdomainCandidate (r : TenantRequest) : Option String :=
  let host := hostOf r
  let mainAppHost := mainAppHostOf r
  let subdomain := splitHead '.' host
  if ¬ (mainAppHost ≠ "" ∧ host = mainAppHost) ∧ subdomain ≠ "" ∧
      subdomain ≠ "www" ∧ subdomain ≠ "localhost" ∧
      subdomain.contains ':' = false then
    some subdomain
  else none

/-- The candidate slug after methods 1–4 (subdomain, path parameter, query
parameter `org`, header `X-Organization-Slug`), first truthy value winning. -/
def candidateSlug (r : TenantRequest) : Option String :=
  firstTruthy [subdomainCandidate r, r.orgSlugParam, r.orgQuery, r.orgSlugHeader]

/-- Outcome of the `identifyOrganization` middleware: proceed (with or
without a resolved organization) or answer 404. -/
inductive IdentifyResult
  | proceed (org : Option Organization)
  | orgNotFound
deriving DecidableEq, Repr

/-- Embedding of `identifyOrganization`: candidate slug, normalization,
exact lookup on slug/subdomain, then the re-normalizing fallback scan. -/
def identifyOrganization (db : Db) (r : TenantRequest) : IdentifyResult :=
  match candidateSlug r with
  | none => .proceed none
  | some slug =>
    let normalizedSlug := normalizeSlug slug
    if normalizedSlug = "" then .proceed none
    else
      match db.organizations.find? (fun o =>
          o.slug == normalizedSlug || o.subdomain == some normalizedSlug) with
      | some org => .proceed (some org)
      | none =>
        match db.organizations.find? (fun o =>
            normalizeSlug o.slug == normalizedSlug ||
            (match o.subdomain with
             | some sd => sd != "" && normalizeSlug sd == normalizedSlug
             | none => false)) with
        | some org => .proceed (some org)
        | none => .orgNotFound

/-! ## Public tracking token generation (tickets.ts, generateSimpleToken) -/

/-- The 32-symbol token alphabet, excluding the ambiguous characters 0/O/I/1. -/
def tokenAlphabet : List Char := "ABCDEFGHJKLMNPQRSTUVWXYZ23456789".data

/-- Character picked by `chars.charAt(Math.floor(Math.random() * chars.length))`. -/
def tokenChar (k : Fin 32) : Char :=
  tokenAlphabet.get (Fin.cast (by decide) k)

/-- One call of `generateSimpleToken`: 8 characters drawn from the alphabet;
the random draws are modelled as a given sequence of indices. -/
def generateSimpleToken (draw : Fin 8 → Fin 32) : String :=
  ⟨(List.finRange 8).map (fun i => tokenChar (draw i))⟩

/-- The n-th token produced inside the uniqueness loop. -/
def tokenAttempt (stream : Nat → Fin 8 → Fin 32) (n : Nat) : String :=
  generateSimpleToken (stream n)

/-- Model of `prisma.ticket.findUnique({ where: { publicToken } })` viewed
as a collision check. -/
def tokenExistsIn (db : Db) (tok : String) : Bool :=
  db.tickets.any (fun t => t.publicToken == some tok)

/-- The `while (tokenExists && attempts < 10)` loop: `n` indexes the current
candidate token and the fuel is the number of regenerations still allowed
(10 at loop entry). -/
def retryToken (existing : String → Bool) (stream : Nat → Fin 8 → Fin 32) :
    Nat → Nat → String
  | n, 0 => tokenAttempt stream n
  | n, fuel + 1 =>
    if existing (tokenAttempt stream n) then retryToken existing stream (n + 1) fuel
    else tokenAttempt stream n

/-- Token selection of both creation endpoints: generate once, regenerate at
most 10 times while the token collides, then proceed with the final token
whether or not it still collides. -/
def ensureUniqueToken (existing : String → Bool) (stream : Nat → Fin 8 → Fin 32) : String :=
  retryToken existing stream 0 10

/-! ## Organization-scoped reads (GET /tickets/public, GET /statuses) -/

/-- Outcome of a read handler: a value or an HTTP error status. -/
inductive ReadResult (α : Type)
  | ok (value : α)
  | err (status : Nat)
deriving DecidableEq, Repr

/-- Embedding of GET /tickets/public: requires a truthy `token` query value,
then `findFirst({ where: { publicToken: token, organizationId } })`; `orgId?`
is `req.organizationId`, a filter Prisma drops when it is `undefined`. -/
def getPublicTicket (db : Db) (orgId? : Option String) (token? : Option String) :
    ReadResult Ticket :=
  match jsNonEmpty token? with
  | none => .err 400
  | some token =>
    match db.tickets.find? (fun t =>
        t.publicToken == some token && prismaOrgFilter orgId? t.organizationId) with
    | none => .err 404
    | some t => .ok t

/-- Insertion into a list sorted by ascending `order`. -/
def insertByOrder (s : TicketStatus) : List TicketStatus → List TicketStatus
  | [] => [s]
  | t :: ts => if s.order ≤ t.order then s :: t :: ts else t :: insertByOrder s ts

/-- Insertion sort by ascending `order`, modelling `orderBy: { order: 'asc' }`. -/
def sortByOrder : List TicketStatus → List TicketStatus
  | [] => []
  | s :: ss => insertByOrder s (sortByOrder ss)

/-- Embedding of GET /statuses: `ticketStatus.findMany` filtered by the
resolved `organizationId` and ordered by `order` ascending. -/
def listStatuses (db : Db) (orgId? : Option String) : List TicketStatus :=
  sortByOrder (db.statuses.filter (fun s => prismaOrgFilter orgId? s.organizationId))

/-! ## Ticket creation (POST /tickets and POST /tickets/public) -/

/-- In-app notification row written by `createNotification`. -/
structure NotificationRow where
  userId : String
  ntype : String
  ticketId : String
deriving DecidableEq, Repr

/-- Side effects of a successful ticket creation, in handler order. -/
structure CreateEffects where
  creatorNotificationRows : List NotificationRow
  submissionEmailTo : Option String
  assignmentEmailsTo : List String
  assignmentNotificationRows : List NotificationRow
deriving DecidableEq, Repr

/-- Outcome of a creation handler. -/
inductive CreateResult
  | created (ticket : Ticket) (effects : CreateEffects)
  | categoryNotFound
  | validationError
deriving DecidableEq, Repr

/-- Body of POST /tickets after `createTicketSchema.parse` succeeded. -/
structure AuthCreateInput where
  title : String
  description : String
  priority : Option String
  categoryId : Option String
deriving DecidableEq, Repr

/-- Raw body of POST /tickets/public, before `createPublicTicketSchema`. -/
structure PublicCreateInput where
  title : String
  description : String
  categoryId : Option String
  submitterName : String
  submitterEmail : String
deriving DecidableEq, Repr

/-- zod gate of `createPublicTicketSchema`: title min 3, description min 10,
submitter name min 2, submitter email of email shape (approximated as
containing an at sign, which every zod-valid email does). -/
def validPublicInput (i : PublicCreateInput) : Bool :=
  decide (3 ≤ i.title.length) && decide (10 ≤ i.description.length) &&
    decide (2 ≤ i.submitterName.length) && i.submitterEmail.data.contains '@'

/-- `userCategoryAssignment.findMany({ where: { categoryId, organizationId } })`
in stored order. -/
def categoryAssignments (db : Db) (organizationId categoryId : String) :
    List AssignmentRow :=
  db.assignments.filter (fun a =>
    a.categoryId == categoryId && a.organizationId == organizationId)

/-- Embedding of POST /tickets (authenticated creation).  `newId` stands for
the id the store generates for the new row; `stream` feeds the token
generator. -/
def authCreateTicket (db : Db) (organizationId userId newId : String)
    (input : AuthCreateInput) (stream : Nat → Fin 8 → Fin 32) : CreateResult :=
  let categoryId? := jsStrOpt input.categoryId
  let category? : Option Category :=
    match categoryId? with
    | some cid =>
      db.categories.find? (fun c => c.id == cid && c.organizationId == organizationId)
    | none => none
  if categoryId?.isSome ∧ category?.isNone then .categoryNotFound
  else
    let publicToken := ensureUniqueToken (tokenExistsIn db) stream
    let assignments :=
      match categoryId? with
      | some cid => categoryAssignments db organizationId cid
      | none => []
    let assignedUserId := assignments.head?.map (fun a => a.userId)
    let ticket : Ticket :=
      { id := newId, organizationId, title := input.title,
        description := input.description,
        priority := (jsNonEmpty input.priority).getD "MEDIUM",
        categoryId := categoryId?, userId := some userId,
        submitterName := none, submitterEmail := none,
        assignedTo := jsStrOpt assignedUserId,
        publicToken := some publicToken, statusId := none }
    let submissionEmailTo :=
      match db.users.find? (fun u => u.id == userId) with
      | some u => jsNonEmpty (some u.email)
      | none => none
    let broadcast := ¬ assignments.isEmpty ∧ category?.isSome
    .created ticket
      { creatorNotificationRows := [⟨userId, "TICKET_CREATED", newId⟩],
        submissionEmailTo,
        assignmentEmailsTo :=
          if broadcast then assignments.map (fun a => a.userEmail) else [],
        assignmentNotificationRows :=
          if broadcast then
            assignments.map (fun a => ⟨a.userId, "TICKET_ASSIGNED", newId⟩)
          else [] }

/-- Embedding of POST /tickets/public (anonymous submission): validation,
category check, token, auto-assignment; the public path creates no in-app
notifications, only emails. -/
def publicCreateTicket (db : Db) (organizationId newId : String)
    (input : PublicCreateInput) (stream : Nat → Fin 8 → Fin 32) : CreateResult :=
  if validPublicInput input = false then .validationError
  else
    let categoryId? := jsStrOpt input.categoryId
    let category? : Option Category :=
      match categoryId? with
      | some cid =>
        db.categories.find? (fun c => c.id == cid && c.organizationId == organizationId)
      | none => none
    if categoryId?.isSome ∧ category?.isNone then .categoryNotFound
    else
      let publicToken := ensureUniqueToken (tokenExistsIn db) stream
      let assignments :=
        match categoryId? with
        | some cid => categoryAssignments db organizationId cid
        | none => []
      let assignedUserId := assignments.head?.map (fun a => a.userId)
      let ticket : Ticket :=
        { id := newId, organizationId, title := input.title,
          description := input.description,
          priority := "MEDIUM",
          categoryId := categoryId?, userId := none,
          submitterName := jsStrOpt (some input.submitterName),
          submitterEmail := jsStrOpt (some input.submitterEmail),
          assignedTo := jsStrOpt assignedUserId,
          publicToken := some publicToken, statusId := none }
      let broadcast := ¬ assignments.isEmpty ∧ category?.isSome
      .created ticket
        { creatorNotificationRows := [],
          submissionEmailTo := jsNonEmpty (some input.submitterEmail),
          assignmentEmailsTo :=
            if broadcast then assignments.map (fun a => a.userEmail) else [],
          assignmentNotificationRows := [] }

/-! ## Ticket-status deletion (src/unnamed/part_004, DELETE /:id) -/

/-- Number of tickets whose `statusId` references the given status
(`_count: { select: { tickets: true } }`). -/
def countTicketsWithStatus (db : Db) (statusId : String) : Nat :=
  (db.tickets.filter (fun t => t.statusId == some statusId)).length

/-- Embedding of DELETE /statuses/:id: 404 when the status is absent in the
tenant, 400 (with the row kept) when tickets still reference it, otherwise
200 with the row removed.  Returns the HTTP status and the resulting store. -/
def deleteTicketStatus (db : Db) (orgId? : Option String) (id : String) : Nat × Db :=
  match db.statuses.find? (fun s => s.id == id && prismaOrgFilter orgId? s.organizationId) with
  | none => (404, db)
  | some s =>
    if 0 < countTicketsWithStatus db s.id then (400, db)
    else (200, { db with statuses := db.statuses.filter (fun t => !(t.id == id)) })

/-! ## Notification and activity-log helpers (utils/notifications.ts, activityLog) -/

/-- Argument of `createNotification`. -/
structure CreateNotificationData where
  userId : String
  ntype : String
  ticketId : Option String
deriving DecidableEq, Repr

/-- Argument of `createActivityLog`. -/
structure ActivityLogData where
  ticketId : String
  userId : Option String
  action : String
deriving DecidableEq, Repr

/-- Embedding of `createNotification`: attempt the store write (the outcome
of `prisma.notification.create` is the parameter `attempt`); a failure is
caught and logged, and the helper returns normally. -/
def createNotification (attempt : CreateNotificationData → Except String Unit)
    (data : CreateNotificationData) : Except String Unit :=
  match attempt data with
  | .ok _ => .ok ()
  | .error _ => .ok ()

/-- Embedding of `createNotificationsForUsers`: build one row per user id and
attempt a single `createMany`; failures are caught and logged. -/
def createNotificationsForUsers
    (attempt : List CreateNotificationData → Except String Unit)
    (userIds : List String) (ntype : String) (ticketId : Option String) :
    Except String Unit :=
  match attempt (userIds.map (fun uid => { userId := uid, ntype, ticketId })) with
  | .ok _ => .ok ()
  | .error _ => .ok ()

/-- Embedding of `createActivityLog`: attempt the store write; a failure is
caught and logged, and the helper returns normally. -/
def createActivityLog (attempt : ActivityLogData → Except String Unit)
    (data : ActivityLogData) : Except String Unit :=
  match attempt data with
  | .ok _ => .ok ()
  | .error _ => .ok ()

end Ticketing

namespace Ticketing

/-! ## Theorems -/

/-- C3: when no Membership row exists for (actor, tenant), `verifyOrganizationAccess`
rejects with the 403 access-denied response; when a row exists it allows.  The
embedding of `verifyOrganizationAccess` takes no role argument at all — the
source reads only membership presence, never a role. -/
theorem verifyOrganizationAccess_membership_only (db : Db) (orgId userId : String)
    (ho : orgId ≠ "") (hu : userId ≠ "") :
    (findMembership db userId orgId = none →
      verifyOrganizationAccess db (some orgId) (some userId) =
        .respond 403 "Access denied: User does not belong to this organization") ∧
    (∀ m, findMembership db userId orgId = some m →
      verifyOrganizationAccess db (some orgId) (some userId) = .next) := by
  constructor
  · intro hnone
    simp [verifyOrganizationAccess, jsNonEmpty, ho, hu, hnone]
  · intro m hm
    simp [verifyOrganizationAccess, jsNonEmpty, ho, hu, hm]

/-- Witness for C3: in a store with no memberships, user u1 is denied access
to organization o1 with a 403 even though the global role never enters. -/
theorem verifyOrganizationAccess_membership_only_witness :
    verifyOrganizationAccess
      { organizations := [], memberships := [], users := [], categories := [],
        assignments := [], tickets := [], statuses := [] }
      (some "o1") (some "u1") =
      .respond 403 "Access denied: User does not belong to this organization" :=
  (verifyOrganizationAccess_membership_only
    { organizations := [], memberships := [], users := [], categories := [],
      assignments := [], tickets := [], statuses := [] }
    "o1" "u1" (by decide) (by decide)).1 rfl

/-! ### Helper lemmas on the slug-normalization pipeline -/

theorem isJsSpace_toNat {c : Char} (h : isJsSpace c = true) : c.toNat ≤ 32 := by
  simp only [isJsSpace, Bool.or_eq_true, beq_iff_eq] at h
  rcases h with ((((h | h) | h) | h) | h) | h <;> subst h <;> decide

theorem isSlugChar_toNat_range {c : Char} (h : isSlugChar c = true) :
    c.toNat = 45 ∨ (48 ≤ c.toNat ∧ c.toNat ≤ 57) ∨ (97 ≤ c.toNat ∧ c.toNat ≤ 122) := by
  simp only [isSlugChar, Bool.or_eq_true, Bool.and_eq_true, decide_eq_true_eq,
    beq_iff_eq] at h
  rcases h with (⟨h1, h2⟩ | ⟨h1, h2⟩) | h
  · exact Or.inr (Or.inr ⟨h1, h2⟩)
  · exact Or.inr (Or.inl ⟨h1, h2⟩)
  · subst h; exact Or.inl rfl

theorem slug_not_space {c : Char} (hs : isSlugChar c = true) : isJsSpace c = false := by
  cases hj : isJsSpace c
  · rfl
  · have h1 := isJsSpace_toNat hj
    have h2 := isSlugChar_toNat_range hs
    omega

theorem lowerChar_slug {c : Char} (hs : isSlugChar c = true) : lowerChar c = c := by
  have h2 := isSlugChar_toNat_range hs
  have hno : ¬ (65 ≤ c.toNat ∧ c.toNat ≤ 90) := by omega
  simp [lowerChar, hno]

theorem replaceBad_slug {c : Char} (hs : isSlugChar c = true) : replaceBad c = c := by
  simp [replaceBad, hs]

theorem isSlugChar_replaceBad (c : Char) : isSlugChar (replaceBad c) = true := by
  unfold replaceBad
  by_cases h : isSlugChar c = true
  · simp [h]
  · simp [h]
    decide

theorem map_eq_self_of {α : Type} (f : α → α) (l : List α) (h : ∀ a ∈ l, f a = a) :
    l.map f = l := by
  induction l with
  | nil => rfl
  | cons a t ih =>
    simp only [List.map_cons]
    rw [h a (by simp), ih (fun x hx => h x (by simp [hx]))]

theorem dropWhile_eq_self_of_head {p : Char → Bool} {l : List Char}
    (h : ∀ c, l.head? = some c → p c = false) : l.dropWhile p = l := by
  cases l with
  | nil => rfl
  | cons a t => simp [List.dropWhile_cons, h a rfl]

theorem dropWhile_eq_self_of {p : Char → Bool} {l : List Char}
    (h : ∀ c ∈ l, p c = false) : l.dropWhile p = l := by
  cases l with
  | nil => rfl
  | cons a t => simp [List.dropWhile_cons, h a (by simp)]

theorem getLast?_memChar {l : List Char} {c : Char} (h : l.getLast? = some c) :
    c ∈ l := by
  induction l with
  | nil => simp at h
  | cons a t ih =>
    cases t with
    | nil =>
      simp only [List.getLast?_singleton, Option.some.injEq] at h
      simp [h]
    | cons x xs =>
      rw [List.getLast?_cons_cons] at h
      exact List.mem_cons_of_mem a (ih h)

theorem dropEnd_eq_self_of_getLast {p : Char → Bool} {l : List Char}
    (h : ∀ c, l.getLast? = some c → p c = false) : dropEnd p l = l := by
  induction l with
  | nil => rfl
  | cons a t ih =>
    cases t with
    | nil =>
      have ha : p a = false := h a rfl
      simp [dropEnd, ha]
    | cons x xs =>
      have hlast : ∀ c, (x :: xs).getLast? = some c → p c = false := by
        intro c hc
        exact h c (by rw [List.getLast?_cons_cons]; exact hc)
      have hrec : dropEnd p (x :: xs) = x :: xs := ih hlast
      show (match dropEnd p (x :: xs) with
        | [] => if p a then [] else [a]
        | rest => a :: rest) = a :: x :: xs
      rw [hrec]

theorem dropEnd_eq_self_of {p : Char → Bool} {l : List Char}
    (h : ∀ c ∈ l, p c = false) : dropEnd p l = l := by
  apply dropEnd_eq_self_of_getLast
  intro c hc
  exact h c (getLast?_memChar hc)

theorem mem_of_mem_dropWhileChar {p : Char → Bool} {l : List Char} {c : Char}
    (h : c ∈ l.dropWhile p) : c ∈ l := by
  induction l with
  | nil => simp [List.dropWhile] at h
  | cons a t ih =>
    rw [List.dropWhile_cons] at h
    by_cases hp : p a = true
    · simp only [hp, if_true] at h
      exact List.mem_cons_of_mem a (ih h)
    · simp only [Bool.not_eq_true] at hp
      simp [hp] at h
      rcases h with h | h
      · simp [h]
      · exact List.mem_cons_of_mem a h

theorem mem_of_mem_dropEnd {p : Char → Bool} {l : List Char} {c : Char}
    (h : c ∈ dropEnd p l) : c ∈ l := by
  induction l with
  | nil => simp [dropEnd] at h
  | cons a t ih =>
    revert h
    show c ∈ (match dropEnd p t with
      | [] => if p a then [] else [a]
      | rest => a :: rest) → c ∈ a :: t
    cases hrest : dropEnd p t with
    | nil =>
      intro h
      by_cases hp : p a = true
      · simp [hp] at h
      · simp only [Bool.not_eq_true] at hp
        simp [hp] at h
        simp [h]
    | cons x xs =>
      intro h
      rcases List.mem_cons.mp h with h | h
      · simp [h]
      · exact List.mem_cons_of_mem a (ih (hrest ▸ h))

theorem head?_dropWhile_false {p : Char → Bool} {l : List Char} {c : Char}
    (h : (l.dropWhile p).head? = some c) : p c = false := by
  induction l with
  | nil => simp [List.dropWhile] at h
  | cons a t ih =>
    rw [List.dropWhile_cons] at h
    by_cases hp : p a = true
    · simp only [hp, if_true] at h
      exact ih h
    · simp only [Bool.not_eq_true] at hp
      simp [hp] at h
      exact h ▸ hp

theorem head?_dropEnd {p : Char → Bool} {l : List Char} {c : Char}
    (h : (dropEnd p l).head? = some c) : l.head? = some c := by
  cases l with
  | nil => simp [dropEnd] at h
  | cons a t =>
    revert h
    show (match dropEnd p t with
      | [] => if p a then [] else [a]
      | rest => a :: rest).head? = some c → (a :: t).head? = some c
    cases dropEnd p t with
    | nil =>
      intro h
      by_cases hp : p a = true
      · simp [hp] at h
      · simp only [Bool.not_eq_true] at hp
        simp [hp] at h
        simp [h]
    | cons x xs =>
      intro h
      simp only [List.head?_cons, Option.some.injEq] at h
      simp [h]

theorem getLast?_dropEnd_false {p : Char → Bool} {l : List Char} {c : Char}
    (h : (dropEnd p l).getLast? = some c) : p c = false := by
  induction l with
  | nil => simp [dropEnd] at h
  | cons a t ih =>
    revert h
    show (match dropEnd p t with
      | [] => if p a then [] else [a]
      | rest => a :: rest).getLast? = some c → p c = false
    cases hrest : dropEnd p t with
    | nil =>
      intro h
      by_cases hp : p a = true
      · simp [hp] at h
      · simp only [Bool.not_eq_true] at hp
        simp [hp] at h
        rw [← h]
        exact hp
    | cons x xs =>
      intro h
      rw [List.getLast?_cons_cons] at h
      exact ih (hrest ▸ h)

theorem normalizeChars_mem_slug (l : List Char) :
    ∀ c ∈ normalizeChars l, isSlugChar c = true := by
  intro c hc
  unfold normalizeChars stripEdgeHyphens at hc
  have h1 := mem_of_mem_dropWhileChar (mem_of_mem_dropEnd hc)
  rcases List.mem_map.mp h1 with ⟨a, _, ha⟩
  rw [← ha]
  exact isSlugChar_replaceBad a

theorem normalizeChars_head (l : List Char) :
    ∀ c, (normalizeChars l).head? = some c → (c == '-') = false := by
  intro c hc
  unfold normalizeChars stripEdgeHyphens at hc
  exact @head?_dropWhile_false (fun x => x == '-') _ c
    (@head?_dropEnd (fun x => x == '-') _ c hc)

theorem normalizeChars_getLast (l : List Char) :
    ∀ c, (normalizeChars l).getLast? = some c → (c == '-') = false := by
  intro c hc
  unfold normalizeChars stripEdgeHyphens at hc
  exact @getLast?_dropEnd_false (fun x => x == '-') _ c hc

theorem normalizeChars_idem (l : List Char) :
    normalizeChars (normalizeChars l) = normalizeChars l := by
  have hslug := normalizeChars_mem_slug l
  have htrim : trimWS (normalizeChars l) = normalizeChars l := by
    unfold trimWS
    rw [dropWhile_eq_self_of (fun c hc => slug_not_space (hslug c hc))]
    exact dropEnd_eq_self_of (fun c hc => slug_not_space (hslug c hc))
  have hlower : (normalizeChars l).map lowerChar = normalizeChars l :=
    map_eq_self_of _ _ (fun c hc => lowerChar_slug (hslug c hc))
  have hreplace : (normalizeChars l).map replaceBad = normalizeChars l :=
    map_eq_self_of _ _ (fun c hc => replaceBad_slug (hslug c hc))
  have hstrip : stripEdgeHyphens (normalizeChars l) = normalizeChars l := by
    unfold stripEdgeHyphens
    rw [dropWhile_eq_self_of_head (normalizeChars_head l)]
    exact dropEnd_eq_self_of_getLast (normalizeChars_getLast l)
  calc normalizeChars (normalizeChars l)
      = stripEdgeHyphens (((trimWS (normalizeChars l)).map lowerChar).map replaceBad) := rfl
    _ = normalizeChars l := by rw [htrim, hlower, hreplace, hstrip]

/-- C7: slug normalization (trim, lowercase, replace every character outside
`[a-z0-9-]` with a hyphen, strip edge hyphens) is idempotent, and its output
contains only `[a-z0-9-]` characters with no leading or trailing hyphen. -/
theorem normalizeSlug_idem_and_shape (s : String) :
    normalizeSlug (normalizeSlug s) = normalizeSlug s ∧
    (∀ c ∈ (normalizeSlug s).data, isSlugChar c = true) ∧
    (∀ c, (normalizeSlug s).data.head? = some c → c ≠ '-') ∧
    (∀ c, (normalizeSlug s).data.getLast? = some c → c ≠ '-') := by
  refine ⟨?_, ?_, ?_, ?_⟩
  · show (⟨normalizeChars (normalizeChars s.data)⟩ : String) = ⟨normalizeChars s.data⟩
    rw [normalizeChars_idem]
  · exact normalizeChars_mem_slug s.data
  · intro c hc
    have := normalizeChars_head s.data c hc
    simpa using this
  · intro c hc
    have := normalizeChars_getLast s.data c hc
    simpa using this

/-- Witness for C7: normalization of a concrete raw slug is idempotent. -/
theorem normalizeSlug_idem_and_shape_witness :
    normalizeSlug (normalizeSlug "  My Org!! ") = normalizeSlug "  My Org!! " :=
  (normalizeSlug_idem_and_shape "  My Org!! ").1

/-! ### Helper lemmas for sorted status listing -/

theorem mem_insertByOrder {x s : TicketStatus} {l : List TicketStatus} :
    x ∈ insertByOrder s l ↔ x = s ∨ x ∈ l := by
  induction l with
  | nil => simp [insertByOrder]
  | cons t ts ih =>
    unfold insertByOrder
    by_cases h : s.order ≤ t.order
    · simp [h]
    · simp only [h, if_false, List.mem_cons, ih]
      tauto

theorem mem_sortByOrder {x : TicketStatus} {l : List TicketStatus} :
    x ∈ sortByOrder l ↔ x ∈ l := by
  induction l with
  | nil => simp [sortByOrder]
  | cons s ss ih => simp [sortByOrder, mem_insertByOrder, ih]

/-- C1 counterexample: not every route-handler read of Ticket data filters
by the resolved organization id.  The publicToken-collision check of both
creation handlers (`findUnique({ where: { publicToken } })`) queries Ticket
by token alone: with organization o1 resolved and the store holding a single
ticket that belongs to o2 and carries token "AAAAAAAA", the collision query
matches that other tenant's row, and the ticket created for o1 is therefore
issued the second candidate token "BBBBBBBB" instead of the first. -/
theorem token_read_ignores_org_cex :
    tokenExistsIn
      { organizations := [], memberships := [], users := [], categories := [],
        assignments := [],
        tickets := [⟨"t9", "o2", "Other", "Other tenant ticket", "MEDIUM",
          none, none, none, none, none, some "AAAAAAAA", none⟩],
        statuses := [] }
      "AAAAAAAA" = true ∧
    (⟨"t9", "o2", "Other", "Other tenant ticket", "MEDIUM", none, none, none,
      none, none, some "AAAAAAAA", none⟩ : Ticket).organizationId = "o2" ∧
    authCreateTicket
      { organizations := [], memberships := [], users := [], categories := [],
        assignments := [],
        tickets := [⟨"t9", "o2", "Other", "Other tenant ticket", "MEDIUM",
          none, none, none, none, none, some "AAAAAAAA", none⟩],
        statuses := [] }
      "o1" "u1" "t1" ⟨"Title", "Long description", none, none⟩
      (fun n _ => if n = 0 then (0 : Fin 32) else 1) =
      .created
        ⟨"t1", "o1", "Title", "Long description", "MEDIUM", none, some "u1",
          none, none, none, some "BBBBBBBB", none⟩
        ⟨[⟨"u1", "TICKET_CREATED", "t1"⟩], none, [], []⟩ :=
  ⟨rfl, rfl, rfl⟩

/-- C1 amended: the two endpoints the claim singles out do filter by the
resolved organization id — the public tracking endpoint returns a ticket
only when its `organizationId` equals the resolved organization, and the
status listing returns only statuses of the resolved organization — while
other reads (the publicToken-collision check, the attachment lookups) query
without an organizationId filter. -/
theorem org_scoped_reads (db : Db) (o : String) (token? : Option String)
    (t : Ticket) (s : TicketStatus)
    (ht : getPublicTicket db (some o) token? = .ok t)
    (hs : s ∈ listStatuses db (some o)) :
    t.organizationId = o ∧ s.organizationId = o := by
  constructor
  · unfold getPublicTicket at ht
    split at ht
    · exact absurd ht (by simp)
    · split at ht
      · exact absurd ht (by simp)
      · rename_i t' hfind
        have htt : t' = t := by
          simpa using ht
        have hp := List.find?_some hfind
        rw [htt] at hp
        have : prismaOrgFilter (some o) t.organizationId = true :=
          (Bool.and_eq_true _ _ |>.mp hp).2
        simpa [prismaOrgFilter] using this
  · unfold listStatuses at hs
    have hmem := mem_sortByOrder.mp hs
    have hp := (List.mem_filter.mp hmem).2
    simpa [prismaOrgFilter] using hp

/-- Witness for C1: in a concrete store, the public endpoint finds the o1
ticket by its token and the status listing contains the o1 status; both rows
carry organization o1. -/
theorem org_scoped_reads_witness :
    ("o1" : String) = "o1" ∧ ("o1" : String) = "o1" :=
  org_scoped_reads
    { organizations := [], memberships := [], users := [], categories := [],
      assignments := [],
      tickets := [⟨"t1", "o1", "T", "D", "MEDIUM", none, none, none, none,
        none, some "TOK12345", none⟩],
      statuses := [⟨"s1", "Open", "o1", 0⟩] }
    "o1" (some "TOK12345")
    ⟨"t1", "o1", "T", "D", "MEDIUM", none, none, none, none, none,
      some "TOK12345", none⟩
    ⟨"s1", "Open", "o1", 0⟩
    rfl (by decide)

/-- C9: deleting a TicketStatus that at least one ticket of the tenant still
references answers 400 (the spec's ConflictError bucket: unique/reference
conflicts surface as 400 with a specific message) and leaves the store — in
particular the status row — unchanged; with zero referencing tickets the
deletion answers 200 and removes exactly the rows with that id. -/
theorem status_delete_conflict (db : Db) (orgId? : Option String) (id : String)
    (s : TicketStatus)
    (hfound : db.statuses.find? (fun x =>
      x.id == id && prismaOrgFilter orgId? x.organizationId) = some s) :
    (0 < countTicketsWithStatus db s.id →
      deleteTicketStatus db orgId? id = (400, db) ∧ s ∈ db.statuses) ∧
    (countTicketsWithStatus db s.id = 0 →
      (deleteTicketStatus db orgId? id).1 = 200 ∧
      ∀ x ∈ (deleteTicketStatus db orgId? id).2.statuses, x.id ≠ id) := by
  constructor
  · intro hcnt
    refine ⟨?_, List.mem_of_find?_eq_some hfound⟩
    simp only [deleteTicketStatus, hfound]
    rw [if_pos hcnt]
  · intro hcnt
    have hres : deleteTicketStatus db orgId? id =
        (200, { db with statuses := db.statuses.filter (fun t => !(t.id == id)) }) := by
      simp only [deleteTicketStatus, hfound]
      rw [if_neg (by omega)]
    refine ⟨by rw [hres], ?_⟩
    intro x hx
    rw [hres] at hx
    have hp := (List.mem_filter.mp hx).2
    simpa using hp

/-- Witness for C9: a tenant status referenced by one ticket; deletion
answers 400 and the store is unchanged. -/
theorem status_delete_conflict_witness :
    deleteTicketStatus
      { organizations := [], memberships := [], users := [], categories := [],
        assignments := [],
        tickets := [⟨"t1", "o1", "T", "D", "MEDIUM", none, none, none, none,
          none, none, some "s1"⟩],
        statuses := [⟨"s1", "Open", "o1", 0⟩] }
      (some "o1") "s1" =
      (400,
        { organizations := [], memberships := [], users := [], categories := [],
          assignments := [],
          tickets := [⟨"t1", "o1", "T", "D", "MEDIUM", none, none, none, none,
            none, none, some "s1"⟩],
          statuses := [⟨"s1", "Open", "o1", 0⟩] }) :=
  ((status_delete_conflict
    { organizations := [], memberships := [], users := [], categories := [],
      assignments := [],
      tickets := [⟨"t1", "o1", "T", "D", "MEDIUM", none, none, none, none,
        none, none, some "s1"⟩],
      statuses := [⟨"s1", "Open", "o1", 0⟩] }
    (some "o1") "s1" ⟨"s1", "Open", "o1", 0⟩ rfl).1 (by decide)).1

/-- C10: the notification and activity-log helpers catch store-write
failures internally and return normally for every outcome of the underlying
write, so a failed write never changes the HTTP response a calling route
computes afterwards (sequencing the helper before a continuation yields the
continuation's result unchanged). -/
theorem notification_helpers_never_fail
    (attempt1 : CreateNotificationData → Except String Unit)
    (d : CreateNotificationData)
    (attempt2 : List CreateNotificationData → Except String Unit)
    (userIds : List String) (ty : String) (tid : Option String)
    (attempt3 : ActivityLogData → Except String Unit) (ld : ActivityLogData)
    (k : Unit → Except String Nat) :
    createNotification attempt1 d = .ok () ∧
    createNotificationsForUsers attempt2 userIds ty tid = .ok () ∧
    createActivityLog attempt3 ld = .ok () ∧
    (createNotification attempt1 d >>= k) = k () := by
  have h1 : createNotification attempt1 d = .ok () := by
    unfold createNotification
    cases attempt1 d <;> rfl
  have h2 : createNotificationsForUsers attempt2 userIds ty tid = .ok () := by
    unfold createNotificationsForUsers
    cases attempt2 (userIds.map (fun uid => { userId := uid, ntype := ty, ticketId := tid })) <;> rfl
  have h3 : createActivityLog attempt3 ld = .ok () := by
    unfold createActivityLog
    cases attempt3 ld <;> rfl
  refine ⟨h1, h2, h3, ?_⟩
  rw [h1]
  rfl

/-! ### Helper lemmas on token generation -/

theorem generateSimpleToken_length (draw : Fin 8 → Fin 32) :
    (generateSimpleToken draw).length = 8 := by
  show (List.map (fun i => tokenChar (draw i)) (List.finRange 8)).length = 8
  simp

theorem generateSimpleToken_chars (draw : Fin 8 → Fin 32) :
    ∀ c ∈ (generateSimpleToken draw).data, c ∈ tokenAlphabet := by
  intro c hc
  have hc2 : c ∈ (List.finRange 8).map (fun i => tokenChar (draw i)) := hc
  rcases List.mem_map.mp hc2 with ⟨i, _, hi⟩
  rw [← hi]
  exact List.get_mem _ _ _

theorem retryToken_reaches (existing : String → Bool) (stream : Nat → Fin 8 → Fin 32) :
    ∀ fuel n, ∃ k, k ≤ fuel ∧
      retryToken existing stream n fuel = tokenAttempt stream (n + k) := by
  intro fuel
  induction fuel with
  | zero => intro n; exact ⟨0, le_rfl, by simp [retryToken]⟩
  | succ f ih =>
    intro n
    by_cases h : existing (tokenAttempt stream n) = true
    · rcases ih (n + 1) with ⟨k, hk, he⟩
      refine ⟨k + 1, by omega, ?_⟩
      have hstep : retryToken existing stream n (f + 1) =
          retryToken existing stream (n + 1) f := by
        simp [retryToken, h]
      rw [hstep, he]
      congr 1
      omega
    · refine ⟨0, by omega, ?_⟩
      have hstop : retryToken existing stream n (f + 1) = tokenAttempt stream n := by
        simp [retryToken, h]
      simpa using hstop

theorem retryToken_all_collide (existing : String → Bool)
    (stream : Nat → Fin 8 → Fin 32) :
    ∀ fuel n, (∀ k, k ≤ fuel → existing (tokenAttempt stream (n + k)) = true) →
      retryToken existing stream n fuel = tokenAttempt stream (n + fuel) := by
  intro fuel
  induction fuel with
  | zero => intro n _; simp [retryToken]
  | succ f ih =>
    intro n h
    have h0 : existing (tokenAttempt stream n) = true := by
      have := h 0 (by omega)
      simpa using this
    have hstep : retryToken existing stream n (f + 1) =
        retryToken existing stream (n + 1) f := by
      simp [retryToken, h0]
    have hrest : ∀ k, k ≤ f → existing (tokenAttempt stream (n + 1 + k)) = true := by
      intro k hk
      have h2 := h (k + 1) (by omega)
      have heq : n + 1 + k = n + (k + 1) := by omega
      rw [heq]
      exact h2
    rw [hstep, ih (n + 1) hrest]
    congr 1
    omega

/-- C8: the public-tracking token is always 8 characters over the 32-symbol
alphabet ABCDEFGHJKLMNPQRSTUVWXYZ23456789; on collision the loop regenerates
at most 10 times and terminates, and when every candidate collides it
proceeds with the last generated token without raising an error. -/
theorem token_generation_spec (existing : String → Bool)
    (stream : Nat → Fin 8 → Fin 32) :
    (ensureUniqueToken existing stream).length = 8 ∧
    (∀ c ∈ (ensureUniqueToken existing stream).data, c ∈ tokenAlphabet) ∧
    (∃ n, n ≤ 10 ∧ ensureUniqueToken existing stream = tokenAttempt stream n) ∧
    ((∀ n, n ≤ 10 → existing (tokenAttempt stream n) = true) →
      ensureUniqueToken existing stream = tokenAttempt stream 10) := by
  obtain ⟨k, hk, he⟩ := retryToken_reaches existing stream 10 0
  have h0 : ensureUniqueToken existing stream = tokenAttempt stream (0 + k) := he
  rw [Nat.zero_add] at h0
  refine ⟨?_, ?_, ⟨k, hk, h0⟩, ?_⟩
  · rw [h0]
    exact generateSimpleToken_length (stream k)
  · rw [h0]
    exact generateSimpleToken_chars (stream k)
  · intro hall
    have hcol := retryToken_all_collide existing stream 10 0
      (fun j hj => by simpa using hall j hj)
    simpa [ensureUniqueToken] using hcol

/-- Witness for C8: with a collision check that always reports a collision,
the loop stops after the 10th regeneration and proceeds with that token. -/
theorem token_generation_spec_witness :
    ensureUniqueToken (fun _ => true) (fun _ _ => (0 : Fin 32)) =
      tokenAttempt (fun _ _ => (0 : Fin 32)) 10 :=
  (token_generation_spec (fun _ => true) (fun _ _ => (0 : Fin 32))).2.2.2
    (fun _ _ => rfl)

/-- C4: whenever a ticket is created (authenticated or public) with a
category that has assignment rows `a0 :: rest` in the tenant, the ticket's
`assignedTo` is the first row's user — the only formal assignee — while an
assignment email goes to every user of the set (and, on the authenticated
path, an in-app assignment notification as well), exactly one per user. -/
theorem auto_assign_first_and_broadcast (db : Db) (org uid nid nid2 : String)
    (input : AuthCreateInput) (pin : PublicCreateInput)
    (stream stream2 : Nat → Fin 8 → Fin 32) (cid : String)
    (a0 : AssignmentRow) (rest : List AssignmentRow)
    (hacid : jsStrOpt input.categoryId = some cid)
    (hpcid : jsStrOpt pin.categoryId = some cid)
    (hassign : categoryAssignments db org cid = a0 :: rest)
    (hnz : a0.userId ≠ "") :
    (∀ t e, authCreateTicket db org uid nid input stream = .created t e →
      t.assignedTo = some a0.userId ∧
      e.assignmentEmailsTo = (a0 :: rest).map (fun a => a.userEmail) ∧
      e.assignmentNotificationRows =
        (a0 :: rest).map (fun a => ⟨a.userId, "TICKET_ASSIGNED", nid⟩) ∧
      e.assignmentEmailsTo.length = (a0 :: rest).length ∧
      e.assignmentNotificationRows.length = (a0 :: rest).length) ∧
    (∀ t e, publicCreateTicket db org nid2 pin stream2 = .created t e →
      t.assignedTo = some a0.userId ∧
      e.assignmentEmailsTo = (a0 :: rest).map (fun a => a.userEmail) ∧
      e.assignmentEmailsTo.length = (a0 :: rest).length ∧
      e.assignmentNotificationRows = []) := by
  constructor
  · intro t e h
    cases hcat : db.categories.find? (fun c => c.id == cid && c.organizationId == org) with
    | none =>
      simp only [authCreateTicket, hacid, hcat] at h
      rw [if_pos (by simp)] at h
      exact absurd h (by simp)
    | some cat =>
      simp only [authCreateTicket, hacid, hcat, hassign] at h
      rw [if_neg (by simp)] at h
      simp only [CreateResult.created.injEq] at h
      obtain ⟨ht, he⟩ := h
      subst ht
      subst he
      refine ⟨?_, ?_, ?_, by simp, by simp⟩
      · simp [jsStrOpt, jsNonEmpty, hnz]
      · simp
      · simp
  · intro t e h
    by_cases hv : validPublicInput pin = false
    · simp only [publicCreateTicket] at h
      rw [if_pos hv] at h
      exact absurd h (by simp)
    · cases hcat : db.categories.find? (fun c => c.id == cid && c.organizationId == org) with
      | none =>
        simp only [publicCreateTicket] at h
        rw [if_neg hv] at h
        simp only [hpcid, hcat] at h
        rw [if_pos (by simp)] at h
        exact absurd h (by simp)
      | some cat =>
        simp only [publicCreateTicket] at h
        rw [if_neg hv] at h
        simp only [hpcid, hcat, hassign] at h
        rw [if_neg (by simp)] at h
        simp only [CreateResult.created.injEq] at h
        obtain ⟨ht, he⟩ := h
        subst ht
        subst he
        refine ⟨?_, ?_, by simp, by simp⟩
        · simp [jsStrOpt, jsNonEmpty, hnz]
        · simp

/-- Witness for C4: category c1 of tenant o1 has two assignment rows; the
authenticated creation assigns the first user u1 and emails both users, and
the public creation does the same (emails only). -/
theorem auto_assign_first_and_broadcast_witness :
    authCreateTicket
      { organizations := [], memberships := [], users := [],
        categories := [⟨"c1", "o1", "Support"⟩],
        assignments := [⟨"u1", "c1", "o1", "u1@x.com", "U1"⟩,
          ⟨"u2", "c1", "o1", "u2@x.com", "U2"⟩],
        tickets := [], statuses := [] }
      "o1" "u9" "t1" ⟨"Title", "Description!", none, some "c1"⟩
      (fun _ _ => (0 : Fin 32)) =
      .created
        ⟨"t1", "o1", "Title", "Description!", "MEDIUM", some "c1", some "u9",
          none, none, some "u1", some "AAAAAAAA", none⟩
        ⟨[⟨"u9", "TICKET_CREATED", "t1"⟩], none, ["u1@x.com", "u2@x.com"],
          [⟨"u1", "TICKET_ASSIGNED", "t1"⟩, ⟨"u2", "TICKET_ASSIGNED", "t1"⟩]⟩ ∧
    (⟨"t1", "o1", "Title", "Description!", "MEDIUM", some "c1", some "u9",
      none, none, some "u1", some "AAAAAAAA", none⟩ : Ticket).assignedTo =
      some "u1" ∧
    (["u1@x.com", "u2@x.com"] : List String).length = 2 := by
  refine ⟨rfl, ?_, rfl⟩
  exact ((auto_assign_first_and_broadcast
    { organizations := [], memberships := [], users := [],
      categories := [⟨"c1", "o1", "Support"⟩],
      assignments := [⟨"u1", "c1", "o1", "u1@x.com", "U1"⟩,
        ⟨"u2", "c1", "o1", "u2@x.com", "U2"⟩],
      tickets := [], statuses := [] }
    "o1" "u9" "t1" "t2" ⟨"Title", "Description!", none, some "c1"⟩
    ⟨"Printer broken", "It wont turn on at all", some "c1", "Sam", "sam@x.com"⟩
    (fun _ _ => (0 : Fin 32)) (fun _ _ => (0 : Fin 32))
    "c1" ⟨"u1", "c1", "o1", "u1@x.com", "U1"⟩
    [⟨"u2", "c1", "o1", "u2@x.com", "U2"⟩]
    rfl rfl rfl (by decide)).1
    ⟨"t1", "o1", "Title", "Description!", "MEDIUM", some "c1", some "u9",
      none, none, some "u1", some "AAAAAAAA", none⟩
    ⟨[⟨"u9", "TICKET_CREATED", "t1"⟩], none, ["u1@x.com", "u2@x.com"],
      [⟨"u1", "TICKET_ASSIGNED", "t1"⟩, ⟨"u2", "TICKET_ASSIGNED", "t1"⟩]⟩
    rfl).1

/-- C5 counterexample: a concrete authenticated creation yields a ticket
whose `publicToken` is non-null ("AAAAAAAA" for the all-zero draw stream),
and that ticket is retrievable through the unauthenticated public tracking
endpoint — so a null `publicToken` never occurs on the authenticated
creation path, and possession of a token is not limited to tickets created
via the public submission path. -/
theorem auth_ticket_token_present_cex :
    authCreateTicket
      { organizations := [], memberships := [], users := [], categories := [],
        assignments := [], tickets := [], statuses := [] }
      "o1" "u1" "t1" ⟨"Title", "Long description", none, none⟩
      (fun _ _ => (0 : Fin 32)) =
      .created
        ⟨"t1", "o1", "Title", "Long description", "MEDIUM", none, some "u1",
          none, none, none, some "AAAAAAAA", none⟩
        ⟨[⟨"u1", "TICKET_CREATED", "t1"⟩], none, [], []⟩ ∧
    (⟨"t1", "o1", "Title", "Long description", "MEDIUM", none, some "u1",
      none, none, none, some "AAAAAAAA", none⟩ : Ticket).publicToken ≠ none ∧
    getPublicTicket
      { organizations := [], memberships := [], users := [], categories := [],
        assignments := [],
        tickets := [⟨"t1", "o1", "Title", "Long description", "MEDIUM", none,
          some "u1", none, none, none, some "AAAAAAAA", none⟩],
        statuses := [] }
      (some "o1") (some "AAAAAAAA") =
      .ok ⟨"t1", "o1", "Title", "Long description", "MEDIUM", none, some "u1",
        none, none, none, some "AAAAAAAA", none⟩ := by
  refine ⟨rfl, by simp, rfl⟩

/-- C5 amended: public submission always stores non-null submitterEmail,
submitterName and publicToken and a null userId; authenticated creation
always stores null submitterEmail and submitterName, the creator's userId,
and — unlike the claim's "may be null" — always a non-null generated
publicToken. -/
theorem submitter_fields_and_token (db : Db) (org uid nid nid2 : String)
    (ain : AuthCreateInput) (pin : PublicCreateInput)
    (stream stream2 : Nat → Fin 8 → Fin 32) :
    (∀ t e, authCreateTicket db org uid nid ain stream = .created t e →
      t.submitterName = none ∧ t.submitterEmail = none ∧
      t.publicToken.isSome ∧ t.userId = some uid) ∧
    (∀ t e, publicCreateTicket db org nid2 pin stream2 = .created t e →
      t.submitterName.isSome ∧ t.submitterEmail.isSome ∧
      t.publicToken.isSome ∧ t.userId = none) := by
  constructor
  · intro t e h
    cases hc : jsStrOpt ain.categoryId with
    | none =>
      simp only [authCreateTicket, hc] at h
      rw [if_neg (by simp)] at h
      simp only [CreateResult.created.injEq] at h
      obtain ⟨ht, _⟩ := h
      subst ht
      simp
    | some cid =>
      cases hcat : db.categories.find? (fun c => c.id == cid && c.organizationId == org) with
      | none =>
        simp only [authCreateTicket, hc, hcat] at h
        rw [if_pos (by simp)] at h
        exact absurd h (by simp)
      | some cat =>
        simp only [authCreateTicket, hc, hcat] at h
        rw [if_neg (by simp)] at h
        simp only [CreateResult.created.injEq] at h
        obtain ⟨ht, _⟩ := h
        subst ht
        simp
  · intro t e h
    by_cases hv : validPublicInput pin = false
    · simp only [publicCreateTicket] at h
      rw [if_pos hv] at h
      exact absurd h (by simp)
    · have hval : validPublicInput pin = true := by
        cases hvv : validPublicInput pin with
        | false => exact absurd hvv hv
        | true => rfl
      simp only [validPublicInput, Bool.and_eq_true, decide_eq_true_eq] at hval
      obtain ⟨⟨⟨_, _⟩, hname⟩, hemail⟩ := hval
      have hn : pin.submitterName ≠ "" := by
        intro hc
        rw [hc] at hname
        simp at hname
      have he : pin.submitterEmail ≠ "" := by
        intro hc
        rw [hc] at hemail
        exact absurd hemail (by decide)
      have hfields : ∀ t' : Ticket,
          t'.submitterName = jsStrOpt (some pin.submitterName) →
          t'.submitterEmail = jsStrOpt (some pin.submitterEmail) →
          t'.publicToken.isSome → t'.userId = none →
          t'.submitterName.isSome ∧ t'.submitterEmail.isSome ∧
            t'.publicToken.isSome ∧ t'.userId = none := by
        intro t' h1 h2 h3 h4
        refine ⟨?_, ?_, h3, h4⟩
        · rw [h1]
          simp [jsStrOpt, jsNonEmpty, hn]
        · rw [h2]
          simp [jsStrOpt, jsNonEmpty, he]
      cases hc : jsStrOpt pin.categoryId with
      | none =>
        simp only [publicCreateTicket] at h
        rw [if_neg hv] at h
        simp only [hc] at h
        rw [if_neg (by simp)] at h
        simp only [CreateResult.created.injEq] at h
        obtain ⟨ht, _⟩ := h
        subst ht
        exact hfields _ rfl rfl (by simp) rfl
      | some cid =>
        cases hcat : db.categories.find? (fun c => c.id == cid && c.organizationId == org) with
        | none =>
          simp only [publicCreateTicket] at h
          rw [if_neg hv] at h
          simp only [hc, hcat] at h
          rw [if_pos (by simp)] at h
          exact absurd h (by simp)
        | some cat =>
          simp only [publicCreateTicket] at h
          rw [if_neg hv] at h
          simp only [hc, hcat] at h
          rw [if_neg (by simp)] at h
          simp only [CreateResult.created.injEq] at h
          obtain ⟨ht, _⟩ := h
          subst ht
          exact hfields _ rfl rfl (by simp) rfl

/-- Witness for C5's amended theorem: a concrete valid public submission
stores Sam's name, email and a token, with no userId. -/
theorem submitter_fields_and_token_witness :
    ((⟨"t2", "o1", "Printer broken", "It wont turn on at all", "MEDIUM", none,
      none, some "Sam", some "sam@x.com", none, some "AAAAAAAA", none⟩ : Ticket).submitterName.isSome ∧
    (⟨"t2", "o1", "Printer broken", "It wont turn on at all", "MEDIUM", none,
      none, some "Sam", some "sam@x.com", none, some "AAAAAAAA", none⟩ : Ticket).submitterEmail.isSome ∧
    (⟨"t2", "o1", "Printer broken", "It wont turn on at all", "MEDIUM", none,
      none, some "Sam", some "sam@x.com", none, some "AAAAAAAA", none⟩ : Ticket).publicToken.isSome ∧
    (⟨"t2", "o1", "Printer broken", "It wont turn on at all", "MEDIUM", none,
      none, some "Sam", some "sam@x.com", none, some "AAAAAAAA", none⟩ : Ticket).userId = none) :=
  (submitter_fields_and_token
    { organizations := [], memberships := [], users := [], categories := [],
      assignments := [], tickets := [], statuses := [] }
    "o1" "u1" "t1" "t2" ⟨"Title", "Long description", none, none⟩
    ⟨"Printer broken", "It wont turn on at all", none, "Sam", "sam@x.com"⟩
    (fun _ _ => (0 : Fin 32)) (fun _ _ => (0 : Fin 32))).2
    ⟨"t2", "o1", "Printer broken", "It wont turn on at all", "MEDIUM", none,
      none, some "Sam", some "sam@x.com", none, some "AAAAAAAA", none⟩
    ⟨[], some "sam@x.com", [], []⟩
    rfl

/-- C2 counterexample: a platform-level ADMIN with no Membership row is
denied by `requireOrgAdmin` with 403 — the source rejects on `!userOrg`
before the global role is ever consulted, so platform ADMIN is not an
implicit org-admin override on tenants without membership. -/
theorem requireOrgAdmin_platform_admin_denied_without_membership :
    requireOrgAdmin
      { organizations := [], memberships := [], users := [], categories := [],
        assignments := [], tickets := [], statuses := [] }
      (some "org1") (some "user1") (some GlobalRole.ADMIN) =
      .respond 403 "Organization admin access required" := rfl

/-- C2 amended: `requireOrgAdmin` allows exactly when a Membership row for
(actor, tenant) exists and either its role is ADMIN or the actor's global
role is ADMIN; in particular a platform ADMIN without membership is denied. -/
theorem requireOrgAdmin_characterization (db : Db) (orgId userId : String)
    (role : GlobalRole) (ho : orgId ≠ "") (hu : userId ≠ "") :
    requireOrgAdmin db (some orgId) (some userId) (some role) = .next ↔
      ∃ m, findMembership db userId orgId = some m ∧
        (m.role = OrgRole.ADMIN ∨ role = GlobalRole.ADMIN) := by
  simp only [requireOrgAdmin, jsNonEmpty, if_neg ho, if_neg hu]
  cases hm : findMembership db userId orgId with
  | none => simp
  | some m =>
    by_cases hrole : m.role = OrgRole.ADMIN ∨ role = GlobalRole.ADMIN
    · have hcond : ¬ (m.role ≠ OrgRole.ADMIN ∧ some role ≠ some GlobalRole.ADMIN) := by
        rcases hrole with h | h <;> simp [h]
      simp only [if_neg hcond]
      simp
      tauto
    · push_neg at hrole
      have hcond : m.role ≠ OrgRole.ADMIN ∧ some role ≠ some GlobalRole.ADMIN := by
        refine ⟨hrole.1, ?_⟩
        simpa using hrole.2
      simp [if_pos hcond, hrole.1, hrole.2]

/-- Witness for C2's amended theorem: a platform ADMIN who holds a mere
MEMBER membership in o1 passes `requireOrgAdmin` there. -/
theorem requireOrgAdmin_characterization_witness :
    requireOrgAdmin
      { organizations := [], memberships := [⟨"u1", "o1", OrgRole.MEMBER⟩],
        users := [], categories := [], assignments := [], tickets := [],
        statuses := [] }
      (some "o1") (some "u1") (some GlobalRole.ADMIN) = .next :=
  (requireOrgAdmin_characterization
    { organizations := [], memberships := [⟨"u1", "o1", OrgRole.MEMBER⟩],
      users := [], categories := [], assignments := [], tickets := [],
      statuses := [] }
    "o1" "u1" GlobalRole.ADMIN (by decide) (by decide)).mpr
    ⟨⟨"u1", "o1", OrgRole.MEMBER⟩, rfl, Or.inr rfl⟩

/-- C6: when the processed Host header equals the configured main-app host,
the subdomain signal is skipped, so the candidate slug is the first truthy
value among path parameter, query parameter `org` and header
`X-Organization-Slug`; if none of those is truthy, resolution yields no
organization, even when the host's first label is a stored tenant slug. -/
theorem mainHost_skips_subdomain (db : Db) (r : TenantRequest)
    (h1 : mainAppHostOf r ≠ "") (h2 : hostOf r = mainAppHostOf r) :
    candidateSlug r = firstTruthy [r.orgSlugParam, r.orgQuery, r.orgSlugHeader] ∧
    (jsNonEmpty r.orgSlugParam = none → jsNonEmpty r.orgQuery = none →
      jsNonEmpty r.orgSlugHeader = none →
      identifyOrganization db r = .proceed none) := by
  have hsub : subdomainCandidate r = none := by
    unfold subdomainCandidate
    rw [if_neg]
    intro hcond
    exact (hcond.1) ⟨h1, h2⟩
  have hcand : candidateSlug r =
      firstTruthy [r.orgSlugParam, r.orgQuery, r.orgSlugHeader] := by
    simp [candidateSlug, firstTruthy, hsub, jsNonEmpty]
  refine ⟨hcand, ?_⟩
  intro hp hq hh
  have hnone : candidateSlug r = none := by
    rw [hcand]
    simp [firstTruthy, hp, hq, hh]
  simp [identifyOrganization, hnone]

/-- Witness for C6: host `tickets.example.com` equals the configured main
host (case- and port-insensitively); the store holds an organization whose
slug is exactly the first host label, yet resolution yields no organization. -/
theorem mainHost_skips_subdomain_witness :
    identifyOrganization
      { organizations := [⟨"orgT", "Tickets", "tickets", none⟩],
        memberships := [], users := [], categories := [], assignments := [],
        tickets := [], statuses := [] }
      { hostHeader := some "Tickets.Example.com",
        mainAppHostEnv := some "tickets.example.com:443",
        orgSlugParam := none, orgQuery := some "", orgSlugHeader := none } =
      .proceed none :=
  (mainHost_skips_subdomain
    { organizations := [⟨"orgT", "Tickets", "tickets", none⟩],
      memberships := [], users := [], categories := [], assignments := [],
      tickets := [], statuses := [] }
    { hostHeader := some "Tickets.Example.com",
      mainAppHostEnv := some "tickets.example.com:443",
      orgSlugParam := none, orgQuery := some "", orgSlugHeader := none }
    (by decide) (by decide)).2 rfl rfl rfl

end Ticketing
